import Mathlib

/-
Verification of the realtime synchronization/transport layer of the
space-grid-game frontend: snapshot fingerprinting and reconciliation,
cursor-resumable long polling, the push-channel (Phoenix-style socket)
client, and the health-status failover loop.

Each definition is a shallow embedding of the corresponding TypeScript
function; doc comments name the source file and lines it was translated
from.  JavaScript numbers that are integers in every reachable state are
modelled as Int; nullable values as Option; thrown exceptions as Except.
-/

deriving instance DecidableEq for Except

namespace SpaceGrid

/-- Game play-state enumeration (gamesApi.ts, GamePlayState). -/
inductive GamePlayState
  | lobby
  | active
  | closed
deriving DecidableEq, Repr

/-- The literal string a GamePlayState value has in JS. -/
def GamePlayState.str : GamePlayState → String
  | .lobby => "lobby"
  | .active => "active"
  | .closed => "closed"

/-- Game status enumeration (gamesApi.ts, GameStatus: 'open' or 'closed').
The JS string 'open' is a Lean keyword, hence the primed constructor names. -/
inductive GameStatus
  | open'
  | closed'
deriving DecidableEq, Repr

/-- Game visibility enumeration (gamesApi.ts, GameVisibility). -/
inductive GameVisibility
  | private'
  | public'
deriving DecidableEq, Repr

/-- Close reason enumeration (gamesApi.ts, GameCloseReason without null). -/
inductive GameCloseKind
  | give_up
  | timeout
  | last_standing
deriving DecidableEq, Repr

/-- Player status: 'active' or 'gave_up' (gamesApi.ts, GamePlayer.status). -/
inductive PlayerStatus
  | active
  | gave_up
deriving DecidableEq, Repr

/-- The literal string a PlayerStatus value has in JS. -/
def PlayerStatus.str : PlayerStatus → String
  | .active => "active"
  | .gave_up => "gave_up"

/-- The Game record (gamesApi.ts, type Game). -/
structure Game where
  id : Int
  createdByUserId : Int
  status : GameStatus
  playState : GamePlayState
  closeReason : Option GameCloseKind
  pointsAtStake : Int
  winnerUserId : Option Int
  currentTurnUserId : Option Int
  turnNumber : Int
  visibility : GameVisibility
  maxPlayers : Int
  playersCount : Int
  fieldWidth : Int
  fieldHeight : Int
  randomSize : Bool
  createdAt : String
  startedAt : Option String
  updatedAt : String
  lastMoveAt : Option String
  closedAt : Option String
deriving DecidableEq, Repr

/-- The GamePlayer record (gamesApi.ts, type GamePlayer). -/
structure GamePlayer where
  id : Int
  userId : Int
  email : String
  joinedAt : String
  status : PlayerStatus
  gaveUpAt : Option String
  positionX : Option Int
  positionY : Option Int
  capturedCellsCount : Int
  gameScore : Int
deriving DecidableEq, Repr

/-- The GameState record (gamesApi.ts, type GameState). -/
structure GameState where
  width : Int
  height : Int
  cells : List (List Int)
  currentTurnUserId : Option Int
  turnNumber : Int
  playState : GamePlayState
deriving DecidableEq, Repr

/-- A board coordinate (App.tsx, type Coord). -/
structure Coord where
  x : Int
  y : Int
deriving DecidableEq, Repr

/-- Game action: 'move' or 'buy' (App.tsx, type GameAction). -/
inductive GameAction
  | move
  | buy
deriving DecidableEq, Repr

/-- Move validation result (App.tsx, type MoveValidation). -/
inductive MoveValidation
  | ok (action : GameAction)
  | err (reason : String)
deriving DecidableEq, Repr

/-- True exactly when the validation has ok=true. -/
def MoveValidation.isOk : MoveValidation → Bool
  | .ok _ => true
  | .err _ => false

/-- The reason string carried by a failed validation (empty for ok results). -/
def MoveValidation.reason : MoveValidation → String
  | .ok _ => ""
  | .err r => r

/-- JS template interpolation of a nullable number with a fallback of the
single character n, as in the snapshot-key rows of App.tsx line 185 and
lines 193-197. -/
def optNumKey : Option Int → String
  | some n => toString n
  | none => "n"

/-- The per-player serialized row of the snapshot key
(App.tsx lines 184-186, the map callback inside buildStateSnapshotKey). -/
def playerRowKey (p : GamePlayer) : String :=
  toString p.userId ++ ":" ++ p.status.str ++ ":" ++ optNumKey p.positionX ++ ":" ++
    optNumKey p.positionY ++ ":" ++ toString p.capturedCellsCount ++ ":" ++
    toString p.gameScore

/-- buildStateSnapshotKey (App.tsx lines 179-201): the snapshot fingerprint,
a stable string serialization of the game scalars, the grid cells and the
player rows, joined with tilde separators. -/
def buildStateSnapshotKey (game : Game) (state : Option GameState)
    (players : List GamePlayer) : String :=
  let playersKey := String.intercalate "|" (players.map playerRowKey)
  let cellsKey :=
    match state with
    | some s => String.intercalate ";"
        (s.cells.map fun row => String.intercalate "," (row.map toString))
    | none => "no-state"
  String.intercalate "~"
    [ toString game.id
    , game.updatedAt
    , game.playState.str
    , toString game.turnNumber
    , optNumKey game.currentTurnUserId
    , toString game.pointsAtStake
    , optNumKey (state.map (·.turnNumber))
    , (match state with | some s => s.playState.str | none => "n")
    , optNumKey (state.bind (·.currentTurnUserId))
    , cellsKey
    , playersKey ]

/-- The occupancy callback of validateMoveTarget (App.tsx lines 312-318):
a player other than the caller, still active, standing on the target cell. -/
def occupiesTarget (target : Coord) (myUserId : Int) (p : GamePlayer) : Bool :=
  p.status == .active && p.userId != myUserId &&
    p.positionX == some target.x && p.positionY == some target.y

/-- validateMoveTarget (App.tsx lines 286-322), translated branch by branch:
state availability, play-state, turn, bounds, own-position availability,
distance-zero buy, exact-one-step move, (dead) diagonal check, occupancy. -/
def validateMoveTarget (target : Coord) (state : Option GameState)
    (players : List GamePlayer) (myUserId : Int) : MoveValidation :=
  match state with
  | none => .err "Game state is not available yet."
  | some s =>
    if s.playState ≠ .active then .err ("Game is " ++ s.playState.str ++ ".")
    else if s.currentTurnUserId ≠ some myUserId then .err "It is not your turn."
    else if target.x < 0 ∨ target.y < 0 ∨ s.width ≤ target.x ∨ s.height ≤ target.y then
      .err "Target is out of bounds."
    else
      match players.find? (fun p => p.userId == myUserId) with
      | none => .err "Your player position is not available."
      | some myPlayer =>
        match myPlayer.positionX, myPlayer.positionY with
        | some mx, some my =>
          let dx := target.x - mx
          let dy := target.y - my
          let distance := dx.natAbs + dy.natAbs
          if distance = 0 then .ok .buy
          else if distance ≠ 1 then .err "Move must be exactly 1 cell."
          else if dx.natAbs = 1 ∧ dy.natAbs = 1 then
            .err "Diagonal moves are not allowed."
          else if players.any (occupiesTarget target myUserId) then
            .err "Target cell is occupied by another active player."
          else .ok .move
        | _, _ => .err "Your player position is not available."

/-- A composite snapshot: the merged game record, optional board state and
player list that GameBoardPage feeds to buildStateSnapshotKey. -/
structure Snapshot where
  game : Game
  state : Option GameState
  players : List GamePlayer
deriving DecidableEq, Repr

/-- The fingerprint of a snapshot. -/
def snapKey (c : Snapshot) : String :=
  buildStateSnapshotKey c.game c.state c.players

/-- The transport an update arrived over. -/
inductive Transport
  | push
  | poll
deriving DecidableEq, Repr

/-- A candidate update: a snapshot tagged with the transport that
delivered it. -/
structure Candidate where
  transport : Transport
  snap : Snapshot
deriving DecidableEq, Repr

/-- The reconciler state held by GameBoardPage: lastSnapshotKeyRef.current
(string or null) and the currently displayed snapshot (none before the
first load). -/
structure RecState where
  lastKey : Option String
  displayed : Option Snapshot
deriving DecidableEq, Repr

/-- shouldPropagate: the reconciliation check of GameBoardPage, comparing
the fingerprint built by buildStateSnapshotKey against the stored one
(App.tsx line 452 on the push path, line 552 on the poll path; JS compares
nextKey !== lastSnapshotKeyRef.current, and a string never equals null).
Returns the accept decision and the candidate fingerprint. -/
def shouldPropagate (prev : Option String) (c : Snapshot) : Bool × String :=
  let nextKey := snapKey c
  (decide (some nextKey ≠ prev), nextKey)

/-- The push-path gate (App.tsx lines 451-467): on accept, store the new
fingerprint and replace the displayed snapshot; otherwise leave state
untouched. -/
def pushGate (st : RecState) (c : Snapshot) : Bool × RecState :=
  let res := shouldPropagate st.lastKey c
  if res.1 then (true, ⟨some res.2, some c⟩) else (false, st)

/-- The poll-path gate (App.tsx lines 551-567): textually the same check
and update as the push path. -/
def pollGate (st : RecState) (c : Snapshot) : Bool × RecState :=
  let res := shouldPropagate st.lastKey c
  if res.1 then (true, ⟨some res.2, some c⟩) else (false, st)

/-- Dispatch a candidate to the gate of the transport it arrived over. -/
def applyCandidate (st : RecState) (c : Candidate) : Bool × RecState :=
  match c.transport with
  | .push => pushGate st c.snap
  | .poll => pollGate st c.snap

/-- Process a sequence of candidate updates, collecting the accept
decisions and the final reconciler state. -/
def processAll (st : RecState) : List Candidate → List Bool × RecState
  | [] => ([], st)
  | c :: cs =>
    let step := applyCandidate st c
    let rest := processAll step.2 cs
    (step.1 :: rest.1, rest.2)

/-- A JSON field as the meta parsers inspect it with typeof checks:
missing, null, a string, a number, or a boolean. -/
inductive JField
  | absent
  | jnull
  | jstr (s : String)
  | jnum (n : Int)
  | jbool (b : Bool)
deriving DecidableEq, Repr

/-- The long-poll response body fields read by healthApi.ts (type HealthJson). -/
structure HealthJson where
  status : JField
  cursor : JField
  timeout : JField
deriving DecidableEq, Repr

/-- Health check result (healthApi.ts, HealthCheckResult): up with a status
text, or down with status text DOWN and an error message. -/
inductive HealthCheckResult
  | up (statusText : String)
  | down (statusText : String) (error : String)
deriving DecidableEq, Repr

/-- getDownResult (healthApi.ts lines 30-38). -/
def getDownResult (message : String) : HealthCheckResult :=
  .down "DOWN" message

/-- One long-poll cycle result (healthApi.ts, HealthLongPollCycle). -/
structure HealthLongPollCycle where
  result : HealthCheckResult
  cursor : Option String
  timedOut : Bool
deriving DecidableEq, Repr

/-- JS String.prototype.trim, written over the character list so that it
reduces inside the kernel (String.trim itself does not): drop whitespace
from both ends. -/
def jsTrim (s : String) : String :=
  ⟨((s.data.dropWhile Char.isWhitespace).reverse.dropWhile Char.isWhitespace).reverse⟩

/-- The "non-empty string" test used by the meta parsers: a JSON string
whose trim is not empty (typeof x === string and x.trim() not empty). -/
def nonEmptyStr : JField → Option String
  | .jstr s => if jsTrim s ≠ "" then some s else none
  | _ => none

/-- parseHealthPayload (healthApi.ts lines 40-52): status text defaulting
to UP, cursor kept only when a non-empty string, timedOut only when the
timeout field is literally true. -/
def parseHealthPayload (data : HealthJson) : String × Option String × Bool :=
  ( (nonEmptyStr data.status).getD "UP"
  , nonEmptyStr data.cursor
  , data.timeout == .jbool true )

/-- What the network produced for one HTTP request: a status code with a
parsed JSON body, a thrown failure (network error or body-parse error),
or an abort of the caller's signal. -/
inductive HttpOutcome (β : Type)
  | response (status : Nat) (body : β)
  | networkError (msg : String)
  | aborted
deriving DecidableEq, Repr

/-- JS Response.ok: status in the 200-299 range. -/
def httpOk (status : Nat) : Bool :=
  200 ≤ status && status ≤ 299

/-- The exceptions fetchHealthStatusLongPoll lets escape: the distinguished
UnsupportedLongPollingError class, or the abort of the caller's signal.
Every other failure is absorbed into a down cycle. -/
inductive HealthPollFailure
  | unsupported (msg : String)
  | aborted
deriving DecidableEq, Repr

/-- The body of the plain snapshot endpoint: JSON with a status field, or a
plain-text body (healthApi.ts lines 73-86 branch on content type). -/
inductive SnapBody
  | json (status : JField)
  | text (t : String)
deriving DecidableEq, Repr

/-- fetchHealthStatusSnapshot (healthApi.ts lines 58-98): any failure other
than an abort becomes a down result; an ok response yields up with the
parsed status text. -/
def fetchHealthStatusSnapshot (net : HttpOutcome SnapBody) :
    Except Unit HealthCheckResult :=
  match net with
  | .aborted => .error ()
  | .networkError msg => .ok (getDownResult msg)
  | .response status body =>
    if httpOk status then
      match body with
      | .json s => .ok (.up ((nonEmptyStr s).getD "UP"))
      | .text t => .ok (.up (if jsTrim t ≠ "" then jsTrim t else "UP"))
    else .ok (getDownResult ("HTTP " ++ toString status))

/-- fetchHealthStatusLongPoll (healthApi.ts lines 100-155): statuses
404/405/501 raise UnsupportedLongPollingError; other non-ok statuses and
network errors are caught and become a down cycle that returns the input
cursor with timedOut=false; an ok response returns the parsed payload,
whose cursor is the server's cursor field (null when omitted), regardless
of the input cursor. -/
def fetchHealthStatusLongPoll (sinceCursor : Option String)
    (net : HttpOutcome HealthJson) :
    Except HealthPollFailure HealthLongPollCycle :=
  match net with
  | .aborted => .error .aborted
  | .networkError msg =>
    .ok { result := getDownResult msg, cursor := sinceCursor, timedOut := false }
  | .response status body =>
    if status = 404 ∨ status = 405 ∨ status = 501 then
      .error (.unsupported
        ("Long polling endpoint is not available (HTTP " ++ toString status ++ ")"))
    else if httpOk status then
      let parsed := parseHealthPayload body
      .ok { result := .up parsed.1, cursor := parsed.2.1, timedOut := parsed.2.2 }
    else
      .ok { result := getDownResult ("HTTP " ++ toString status)
          , cursor := sinceCursor, timedOut := false }

/-- The JS nullish-coalescing update used by every subscription loop to
carry the cursor forward: cycle.cursor when present, else the prior one
(HealthStatus.tsx line 107, App.tsx line 546). -/
def loopNextCursor (cycleCursor prior : Option String) : Option String :=
  match cycleCursor with
  | some s => some s
  | none => prior

/-- The transport mode of the health subscription loop
(HealthStatus.tsx, type TransportMode). -/
inductive TransportMode
  | longPoll
  | pollingFallback
deriving DecidableEq, Repr

/-- A request the health loop issues: a resumable cursor-carrying long
poll, or a plain snapshot request. -/
inductive HealthRequest
  | resumable (cursor : Option String)
  | snapshot
deriving DecidableEq, Repr

/-- True for the cursor-carrying resumable long-poll request. -/
def HealthRequest.isResumable : HealthRequest → Bool
  | .resumable _ => true
  | .snapshot => false

/-- ERROR_RETRY_MS (HealthStatus.tsx line 10). -/
def ERROR_RETRY_MS : Nat := 2000

/-- MAX_ERROR_RETRY_MS (HealthStatus.tsx line 11). -/
def MAX_ERROR_RETRY_MS : Nat := 10000

/-- State of the health subscription loop: the cursor, the transport mode,
the current backoff delay, and whether the loop has returned (abort). -/
structure HealthLoopState where
  cursor : Option String
  mode : TransportMode
  retryMs : Nat
  halted : Bool
deriving DecidableEq, Repr

/-- The outcomes the environment supplies for the awaits one loop
iteration may perform: the long-poll fetch, the recovery probe after a
down cycle, the fallback-mode snapshot fetch, and whether the subscription
was torn down during the recovery sleep. -/
structure HealthEnv where
  pollNet : HttpOutcome HealthJson
  probeNet : HttpOutcome SnapBody
  snapNet : HttpOutcome SnapBody
  tornDownDuringSleep : Bool
deriving DecidableEq, Repr

/-- One iteration of runLoop (HealthStatus.tsx lines 57-152), returning the
successor state and the requests the iteration issued.  In long-poll mode:
an UnsupportedLongPollingError switches the mode to polling-fallback; an
abort halts; a down cycle sleeps and issues a snapshot probe that either
resets the backoff and clears the cursor (probe up) or doubles the backoff
up to the ceiling (probe down); an up cycle resets the backoff and carries
the cursor forward.  In fallback mode only a snapshot request is issued
and the mode never changes. -/
def healthLoopStep (st : HealthLoopState) (env : HealthEnv) :
    HealthLoopState × List HealthRequest :=
  if st.halted then (st, [])
  else
    match st.mode with
    | .longPoll =>
      match fetchHealthStatusLongPoll st.cursor env.pollNet with
      | .error (.unsupported _) =>
        ({ st with mode := .pollingFallback }, [.resumable st.cursor])
      | .error .aborted =>
        ({ st with halted := true }, [.resumable st.cursor])
      | .ok cycle =>
        match cycle.result with
        | .down _ _ =>
          if env.tornDownDuringSleep then
            ({ st with halted := true }, [.resumable st.cursor])
          else
            match fetchHealthStatusSnapshot env.probeNet with
            | .error _ =>
              ({ st with halted := true }, [.resumable st.cursor, .snapshot])
            | .ok (.up _) =>
              ({ st with retryMs := ERROR_RETRY_MS, cursor := none }
              , [.resumable st.cursor, .snapshot])
            | .ok (.down _ _) =>
              ({ st with retryMs := min (st.retryMs * 2) MAX_ERROR_RETRY_MS }
              , [.resumable st.cursor, .snapshot])
        | .up _ =>
          ({ st with
              retryMs := ERROR_RETRY_MS
              cursor := loopNextCursor cycle.cursor st.cursor },
           [.resumable st.cursor])
    | .pollingFallback =>
      match fetchHealthStatusSnapshot env.snapNet with
      | .error _ => ({ st with halted := true }, [.snapshot])
      | .ok _ => ({ st with retryMs := ERROR_RETRY_MS }, [.snapshot])

/-- Run the health loop over a sequence of iteration environments,
concatenating the requests issued along the way. -/
def runHealthLoop (st : HealthLoopState) :
    List HealthEnv → HealthLoopState × List HealthRequest
  | [] => (st, [])
  | env :: envs =>
    let step := healthLoopStep st env
    let rest := runHealthLoop step.1 envs
    (rest.1, step.2 ++ rest.2)

/-- The payload of one published health view update (the setState argument
of publish in HealthStatus.tsx lines 48-54, without the wall-clock Date). -/
structure HealthViewUpdate where
  result : HealthCheckResult
  transportMode : TransportMode
  note : String
deriving DecidableEq, Repr

/-- publish (HealthStatus.tsx lines 41-55): the only state-publishing path
of the health subscription; it emits nothing once isActive is false. -/
def publish (isActive : Bool) (result : HealthCheckResult)
    (mode : TransportMode) (note : String) : Option HealthViewUpdate :=
  if isActive then some ⟨result, mode, note⟩ else none

/-- The subscription flags the effect closure owns: the isActive guard and
whether the in-flight controller was aborted. -/
structure HealthSub where
  isActive : Bool
  abortCalled : Bool
deriving DecidableEq, Repr

/-- The effect cleanup (HealthStatus.tsx lines 156-159): clear isActive and
abort the in-flight controller. -/
def teardown (_s : HealthSub) : HealthSub :=
  { isActive := false, abortCalled := true }

/-- All view updates actually emitted for a list of late publish calls
(e.g. resolutions of requests that were in flight at teardown time). -/
def publishAll (isActive : Bool)
    (calls : List (HealthCheckResult × TransportMode × String)) :
    List HealthViewUpdate :=
  calls.filterMap fun a => publish isActive a.1 a.2.1 a.2.2

/-- WebSocket readyState values; the JS constant names OPEN and CLOSED are
Lean keywords, hence the primed constructor names. -/
inductive WsReadyState
  | connecting
  | open'
  | closing
  | closed'
deriving DecidableEq, Repr

/-- The underlying browser socket handle, reduced to its readyState. -/
structure WsConn where
  readyState : WsReadyState
deriving DecidableEq, Repr

/-- Socket status reported through onStatusChange (ws.ts, SocketStatus). -/
inductive SocketStatus
  | connecting
  | connected
  | disconnected
deriving DecidableEq, Repr

/-- An inbound message payload as the handlers inspect it: a falsy value,
an object with a status field (join replies), an object with a message
field (error payloads), or anything else. -/
inductive InPayload
  | nullish
  | statusObj (status : JField)
  | messageObj (message : String)
  | other (tag : String)
deriving DecidableEq, Repr

/-- The JS truthiness-and-status check on a join reply payload
(ws.ts line 94: payload and payload.status === ok). -/
def joinReplyOk : InPayload → Bool
  | .statusObj s => s == .jstr "ok"
  | _ => false

/-- An outbound frame payload: the empty object or a move body. -/
inductive OutPayload
  | empty
  | move (x y : Int) (buyCell : Bool)
deriving DecidableEq, Repr

/-- The 5-element Phoenix v2 frame the client transmits
(ws.ts line 168: joinRef, ref, topic, event, payload). -/
structure WsFrame where
  joinRef : Option String
  ref : String
  topic : String
  event : String
  payload : OutPayload
deriving DecidableEq, Repr

/-- The mutable fields of PhoenixGameSocket (ws.ts lines 61-68), together
with the observable session phase: the last status the instance reported
through onStatusChange (none before any report).  The phase field is read
by no method of the class — which is exactly what the outbound-send claims
are about. -/
structure PhoenixGameSocket where
  topic : String
  ws : Option WsConn
  ref : Nat
  joinRef : Option String
  phase : Option SocketStatus
deriving DecidableEq, Repr

/-- PhoenixGameSocket.push (ws.ts lines 163-170): a no-op returning null
unless the socket exists and is OPEN; otherwise increments the ref
counter, transmits a frame carrying the stored joinRef (null for the join
itself) and the subscription topic, and returns the new ref.  Result:
(returned ref, successor state, transmitted frame). -/
def PhoenixGameSocket.push (st : PhoenixGameSocket) (event : String)
    (payload : OutPayload) :
    Option String × PhoenixGameSocket × Option WsFrame :=
  match st.ws with
  | none => (none, st, none)
  | some conn =>
    if conn.readyState = .open' then
      let newRef := st.ref + 1
      let refStr := toString newRef
      let frameJoinRef := if event = "phx_join" then none else st.joinRef
      (some refStr, { st with ref := newRef },
       some ⟨frameJoinRef, refStr, st.topic, event, payload⟩)
    else (none, st, none)

/-- PhoenixGameSocket.sendMove (ws.ts lines 159-161): Boolean(push(...)). -/
def PhoenixGameSocket.sendMove (st : PhoenixGameSocket) (x y : Int)
    (buyCell : Bool) : Bool × PhoenixGameSocket × Option WsFrame :=
  let r := st.push "move" (.move x y buyCell)
  (r.1.isSome, r.2.1, r.2.2)

/-- PhoenixGameSocket.requestState (ws.ts lines 155-157). -/
def PhoenixGameSocket.requestState (st : PhoenixGameSocket) :
    Bool × PhoenixGameSocket × Option WsFrame :=
  let r := st.push "request_state" .empty
  (r.1.isSome, r.2.1, r.2.2)

/-- PhoenixGameSocket.disconnect (ws.ts lines 144-149): close and clear the
socket handle when one exists; the Bool records whether close() was
called.  No other field is touched. -/
def PhoenixGameSocket.disconnect (st : PhoenixGameSocket) :
    PhoenixGameSocket × Bool :=
  match st.ws with
  | some _ => ({ st with ws := none }, true)
  | none => (st, false)

/-- The process-wide realtime transport status values
(realtimeStatus.ts, RealtimeTransportState). -/
inductive RealtimeTransportState
  | idle
  | wsConnecting
  | wsConnected
  | pollingFallback
deriving DecidableEq, Repr

/-- A parsed inbound channel message (ws.ts, PhoenixMessage). -/
structure WsInMsg where
  joinRef : Option String
  ref : Option String
  topic : String
  event : String
  payload : InPayload
deriving DecidableEq, Repr

/-- The observable effects the socket's onmessage handler performs. -/
inductive WsEffect
  | statusChange (s : SocketStatus)
  | publishStatus (state : RealtimeTransportState) (message : Option String)
  | emitEvent (event : String) (payload : InPayload)
  | pushFrame (event : String)
deriving DecidableEq, Repr

/-- The onmessage handler of PhoenixGameSocket.connect (ws.ts lines
88-123): drop unparsable frames and foreign topics; a phx_reply whose ref
matches the stored joinRef is the join reply — an ok payload reports
connected, publishes ws-connected and pushes request_state, any other
payload reports disconnected, publishes polling-fallback with a reason and
emits a Join failed error event; every other message is dispatched to
subscribers.  The handler mutates none of the instance fields. -/
def handleMessage (st : PhoenixGameSocket) (parsed : Option WsInMsg) :
    List WsEffect :=
  match parsed with
  | none => []
  | some m =>
    if m.topic ≠ st.topic then []
    else if m.event = "phx_reply" ∧ m.ref = st.joinRef then
      if joinReplyOk m.payload then
        [.statusChange .connected,
         .publishStatus .wsConnected none,
         .pushFrame "request_state"]
      else
        [.statusChange .disconnected,
         .publishStatus .pollingFallback (some "WebSocket join failed, using long poll."),
         .emitEvent "error" (.messageObj "Join failed")]
    else
      [.emitEvent m.event m.payload]

/-- The ws transport state GameBoardPage tracks (App.tsx line 344). -/
inductive PageWsTransport
  | idle
  | connecting
  | connected
  | disconnected
deriving DecidableEq, Repr

/-- The onStatusChange handler GameBoardPage installs (App.tsx lines
408-420): the new (wsConnected, wsTransportState) pair and the realtime
status published for each socket status. -/
def pageOnStatusChange (status : SocketStatus) :
    (Bool × PageWsTransport) × (RealtimeTransportState × Option String) :=
  match status with
  | .connecting => ((false, .connecting), (.wsConnecting, none))
  | .connected => ((true, .connected), (.wsConnected, none))
  | .disconnected =>
    ((false, .disconnected),
     (.pollingFallback, some "WebSocket disconnected, using long poll."))

/-- The guard of the long-poll effect (App.tsx line 522): the poll loop
runs only when the socket is not connected and the ws transport state is
disconnected. -/
def pollLoopGate (wsConnected : Bool) (t : PageWsTransport) : Bool :=
  !wsConnected && t == .disconnected

/-- The result of one getGameStateLongPoll call as the game-board poll
loop consumes it. -/
structure GamePollCycle where
  snap : Snapshot
  cursor : Option String
  timedOut : Bool
deriving DecidableEq, Repr

/-- How one awaited getGameStateLongPoll call resolved. -/
inductive GamePollOutcome
  | ok (cycle : GamePollCycle)
  | thrown (msg : String)
  | aborted
deriving DecidableEq, Repr

/-- State carried across iterations of the game-board poll loop: the
cursor ref and the reconciler state. -/
structure GamePollState where
  cursor : Option String
  recState : RecState
deriving DecidableEq, Repr

/-- An observable action of the game-board poll loop. -/
inductive PollAction
  | request (cursor : Option String)
  | sleep (ms : Nat)
deriving DecidableEq, Repr

/-- The action trace of the game-board poll loop (App.tsx lines 537-584)
for a list of awaited outcomes: every iteration issues the long-poll
request first; an error sleeps 1500 ms before retrying; a timed-out cycle
re-issues immediately after carrying the cursor forward; a data cycle runs
the snapshot gate and re-issues immediately; an abort ends the loop. -/
def gamePollActions (st : GamePollState) :
    List GamePollOutcome → List PollAction
  | [] => [.request st.cursor]
  | out :: rest =>
    .request st.cursor ::
      match out with
      | .aborted => []
      | .thrown _ => .sleep 1500 :: gamePollActions st rest
      | .ok cycle =>
        let st2 : GamePollState :=
          { cursor := loopNextCursor cycle.cursor st.cursor
            recState := if cycle.timedOut then st.recState
              else (pollGate st.recState cycle.snap).2 }
        gamePollActions st2 rest

/-- The authenticated user record (authApi.ts, AuthUser). -/
structure AuthUser where
  id : Int
  email : String
  score : Int
  tierLevel : Int
  scoreWalletMax : Int
  nextTierUpgradeCost : Option Int
deriving DecidableEq, Repr

/-- Auth state (authApi.ts, AuthState; the created flag of authByEmail is
not involved in any long-poll path and is omitted). -/
inductive AuthState
  | guest
  | authed (user : AuthUser)
deriving DecidableEq, Repr

/-- One auth long-poll cycle (authApi.ts, AuthLongPollCycle). -/
structure AuthLongPollCycle where
  authState : AuthState
  cursor : Option String
  timedOut : Bool
deriving DecidableEq, Repr

/-- The exceptions the sync and auth long-poll calls let escape: a thrown
Error with a message (generic, carrying no machine-readable class), or the
abort of the caller's signal. -/
inductive SyncThrow
  | thrown (msg : String)
  | aborted
deriving DecidableEq, Repr

/-- The long-poll response body of the auth endpoint
(authApi.ts, MeLongPollResponse).  The user field holds the result of
parseUser on the raw user value (none when validation fails); parseUser
itself is pure typeof-checking and is not needed by any claim. -/
structure MeLongPollBody where
  authenticated : JField
  user : Option AuthUser
  cursor : JField
  timeout : JField
deriving DecidableEq, Repr

/-- fetchCurrentUserLongPoll (authApi.ts lines 94-128): HTTP 401 is the
sentinel unauthenticated result — a guest cycle that returns the input
cursor without throwing; any other non-ok status throws a generic Error;
an ok response parses the body, with the cursor kept only when a non-empty
string.  The JS message also carries response.statusText, which this model
drops. -/
def fetchCurrentUserLongPoll (sinceCursor : Option String)
    (net : HttpOutcome MeLongPollBody) :
    Except SyncThrow AuthLongPollCycle :=
  match net with
  | .aborted => .error .aborted
  | .networkError msg => .error (.thrown msg)
  | .response status body =>
    if status = 401 then
      .ok { authState := .guest, cursor := sinceCursor, timedOut := false }
    else if httpOk status then
      let authState : AuthState :=
        match body.authenticated, body.user with
        | .jbool true, some u => .authed u
        | _, _ => .guest
      .ok { authState
            cursor := nonEmptyStr body.cursor
            timedOut := body.timeout == .jbool true }
    else .error (.thrown ("HTTP " ++ toString status))

/-- parseErrorMessage (syncApi.ts lines 214-218). -/
def parseErrorMessage (message : JField) (fallback : String) : String :=
  (nonEmptyStr message).getD fallback

/-- The body of a sync long-poll response.  The domain payload (user,
games, currentGame, pendingInvitationsCount) is kept abstract as the
outcome of the field validators of syncApi.ts lines 97-212 — an already
validated value, or the message of the Error a validator threw; no claim
depends on those validators.  The meta fields and the error-body message
are carried raw. -/
structure SyncBodyMeta (α : Type) where
  domain : Except String α
  message : JField
  cursor : JField
  timeout : JField

/-- One sync long-poll cycle with its domain payload (syncApi.ts,
SyncLongPollCycle, with the domain fields abstracted as one value). -/
structure SyncCycle (α : Type) where
  data : α
  cursor : Option String
  timedOut : Bool
deriving DecidableEq, Repr

/-- fetchSyncLongPoll (syncApi.ts lines 220-254): a non-ok response —
including HTTP 401, for which this function has no special case — throws a
generic Error built by parseErrorMessage with fallback HTTP status; an ok
response returns the domain payload (re-throwing any validator error) with
the cursor kept only when a non-empty string. -/
def fetchSyncLongPoll (α : Type) (sinceCursor : Option String)
    (net : HttpOutcome (SyncBodyMeta α)) :
    Except SyncThrow (SyncCycle α) :=
  match net with
  | .aborted => .error .aborted
  | .networkError msg => .error (.thrown msg)
  | .response status body =>
    if httpOk status then
      match body.domain with
      | .error msg => .error (.thrown msg)
      | .ok d =>
        .ok { data := d
              cursor := nonEmptyStr body.cursor
              timedOut := body.timeout == .jbool true }
    else
      .error (.thrown (parseErrorMessage body.message ("HTTP " ++ toString status)))

/-! Concrete sample values used by witnesses and counterexamples. -/

/-- A concrete open active game. -/
def sampleGame : Game :=
  { id := 7, createdByUserId := 1, status := .open', playState := .active,
    closeReason := none, pointsAtStake := 100, winnerUserId := none,
    currentTurnUserId := some 1, turnNumber := 3, visibility := .public',
    maxPlayers := 2, playersCount := 2, fieldWidth := 4, fieldHeight := 4,
    randomSize := false, createdAt := "2024-01-01T00:00:00Z",
    startedAt := some "2024-01-01T00:05:00Z",
    updatedAt := "2024-01-01T00:10:00Z", lastMoveAt := none, closedAt := none }

/-- A concrete active player at cell (0, 0). -/
def samplePlayerOne : GamePlayer :=
  { id := 11, userId := 1, email := "a@example.com",
    joinedAt := "2024-01-01T00:00:00Z", status := .active, gaveUpAt := none,
    positionX := some 0, positionY := some 0, capturedCellsCount := 2,
    gameScore := 5 }

/-- A concrete active player at cell (1, 1). -/
def samplePlayerTwo : GamePlayer :=
  { id := 12, userId := 2, email := "b@example.com",
    joinedAt := "2024-01-01T00:01:00Z", status := .active, gaveUpAt := none,
    positionX := some 1, positionY := some 1, capturedCellsCount := 1,
    gameScore := 3 }

/-- A concrete 4x4 board state, player one to move. -/
def sampleState : GameState :=
  { width := 4, height := 4,
    cells := [[1, 0, 0, 0], [0, 2, 0, 0], [0, 0, 0, 0], [0, 0, 0, 0]],
    currentTurnUserId := some 1, turnNumber := 3, playState := .active }

/-- A concrete snapshot combining the sample game, state and players. -/
def sampleSnapshot : Snapshot :=
  { game := sampleGame, state := some sampleState,
    players := [samplePlayerOne, samplePlayerTwo] }

/-- A socket whose underlying WebSocket is OPEN after a completed join. -/
def sampleJoinedSocket : PhoenixGameSocket :=
  { topic := "game:7", ws := some ⟨.open'⟩, ref := 5, joinRef := some "1",
    phase := some .connected }

/-- A socket whose underlying WebSocket is OPEN but whose join was rejected:
the last reported status is disconnected, yet ws.ts keeps the socket open. -/
def sampleNotJoinedSocket : PhoenixGameSocket :=
  { topic := "game:7", ws := some ⟨.open'⟩, ref := 1, joinRef := some "1",
    phase := some .disconnected }

/-! Claim theorems. -/

/-- C9, counterexample: after a session with ref=5 and joinRef="1",
disconnect() leaves both fields at their pre-teardown values instead of
the initial values ref=0 and joinRef=null (ws.ts lines 144-149 only clear
the socket handle). -/
theorem disconnect_leaves_ref_and_joinref :
    (sampleJoinedSocket.disconnect).1.ref ≠ 0 ∧
    (sampleJoinedSocket.disconnect).1.joinRef ≠ none := by
  decide

/-- C9 (amended): disconnect() is safe to call from any state including
never-connected (it is total), closes the socket exactly when one is
present and clears the handle, but leaves the ref counter and joinRef
unchanged — they are only overwritten by the next connect. -/
theorem disconnect_safe_but_no_reset (st : PhoenixGameSocket) :
    (st.disconnect).1.ws = none ∧
    (st.disconnect).1.ref = st.ref ∧
    (st.disconnect).1.joinRef = st.joinRef ∧
    (st.disconnect).1.topic = st.topic ∧
    (st.disconnect).2 = st.ws.isSome := by
  cases h : st.ws <;> simp [PhoenixGameSocket.disconnect, h]

/-- C8, counterexample: with the socket OPEN but the session not joined
(the join reply was a failure, so the last reported status is
disconnected), sendMove still reports success and transmits a frame —
push only checks readyState (ws.ts line 164), not the join state. -/
theorem send_while_not_joined_still_transmits :
    sampleNotJoinedSocket.phase ≠ some SocketStatus.connected ∧
    (sampleNotJoinedSocket.sendMove 1 0 false).1 = true ∧
    (sampleNotJoinedSocket.sendMove 1 0 false).2.2 =
      some ⟨some "1", "2", "game:7", "move", .move 1 0 false⟩ := by
  decide

/-- C8 (amended): an outbound push is a no-op reporting failure exactly
when the socket handle is missing or not OPEN — joined or not; when the
socket is OPEN, every push increments the ref counter by one (strictly
increasing), and every non-join frame carries the stored joinRef and the
subscription topic. -/
theorem push_gated_only_on_open_socket (st : PhoenixGameSocket)
    (event : String) (payload : OutPayload) :
    ((st.ws = none ∨ ∃ conn, st.ws = some conn ∧ conn.readyState ≠ .open') →
      st.push event payload = (none, st, none) ∧
      ∀ x y b, (st.sendMove x y b).1 = false ∧ (st.sendMove x y b).2.2 = none) ∧
    (∀ conn, st.ws = some conn → conn.readyState = .open' → event ≠ "phx_join" →
      st.push event payload =
        (some (toString (st.ref + 1)), { st with ref := st.ref + 1 },
         some ⟨st.joinRef, toString (st.ref + 1), st.topic, event, payload⟩)) := by
  constructor
  · intro h
    have hpush : st.push event payload = (none, st, none) := by
      rcases h with h | ⟨conn, hc, hr⟩
      · simp [PhoenixGameSocket.push, h]
      · simp [PhoenixGameSocket.push, hc, hr]
    refine ⟨hpush, fun x y b => ?_⟩
    have : st.push "move" (.move x y b) = (none, st, none) := by
      rcases h with h | ⟨conn, hc, hr⟩
      · simp [PhoenixGameSocket.push, h]
      · simp [PhoenixGameSocket.push, hc, hr]
    simp [PhoenixGameSocket.sendMove, this]
  · intro conn hc hr hev
    simp [PhoenixGameSocket.push, hc, hr, hev]

/-- C8 witness: applying the gating theorem to the concrete joined socket
sends a move frame with ref 6, the stored joinRef and the topic. -/
theorem push_gated_only_on_open_socket_witness :
    sampleJoinedSocket.push "move" (.move 2 3 true) =
      (some (toString (sampleJoinedSocket.ref + 1)),
       { sampleJoinedSocket with ref := sampleJoinedSocket.ref + 1 },
       some ⟨sampleJoinedSocket.joinRef, toString (sampleJoinedSocket.ref + 1),
             sampleJoinedSocket.topic, "move", OutPayload.move 2 3 true⟩) :=
  (push_gated_only_on_open_socket sampleJoinedSocket "move"
      (.move 2 3 true)).2 ⟨.open'⟩ rfl rfl (by decide)

/-- C6: after the health subscription cleanup runs (isActive cleared, the
in-flight controller aborted), no late publish call emits a view update:
the publish guard drops every resolution that surfaces after teardown. -/
theorem teardown_prevents_further_publishes (s : HealthSub)
    (calls : List (HealthCheckResult × TransportMode × String)) :
    (teardown s).isActive = false ∧
    (teardown s).abortCalled = true ∧
    publishAll (teardown s).isActive calls = [] := by
  have hnone : ∀ cs : List (HealthCheckResult × TransportMode × String),
      publishAll false cs = [] := by
    intro cs
    induction cs with
    | nil => rfl
    | cons a rest ih =>
      simp only [publishAll, List.filterMap_cons] at ih ⊢
      simpa [publish] using ih
  exact ⟨rfl, rfl, hnone calls⟩

/-- A sync body whose domain payload validates trivially; used to probe the
error paths of fetchSyncLongPoll. -/
def emptySyncBody : SyncBodyMeta Unit :=
  { domain := .ok (), message := .absent, cursor := .absent, timeout := .absent }

/-- C4, counterexample: the sync long-poll entry point answers HTTP 401 by
throwing a plain Error whose shape is identical to the one thrown for a
500 — no sentinel result, nothing machine-distinguishable from a transport
failure (syncApi.ts lines 234-242 have no 401 case). -/
theorem sync_long_poll_throws_generic_error_on_401 :
    fetchSyncLongPoll Unit (some "v1") (.response 401 emptySyncBody) =
      .error (.thrown "HTTP 401") ∧
    fetchSyncLongPoll Unit (some "v1") (.response 500 emptySyncBody) =
      .error (.thrown "HTTP 500") := by
  constructor <;> rfl

/-- C4 (amended): only the auth endpoint returns the sentinel
unauthenticated result on HTTP 401 — a guest cycle carrying the input
cursor without throwing (authApi.ts lines 110-112) — while the sync
long-poll entry point throws a generic Error built from the error body
(syncApi.ts lines 234-242). -/
theorem auth_sentinel_only_on_auth_long_poll (cur : Option String)
    (body : MeLongPollBody) (α : Type) (sbody : SyncBodyMeta α) :
    fetchCurrentUserLongPoll cur (.response 401 body) =
      .ok { authState := .guest, cursor := cur, timedOut := false } ∧
    fetchSyncLongPoll α cur (.response 401 sbody) =
      .error (.thrown (parseErrorMessage sbody.message "HTTP 401")) := by
  constructor
  · rfl
  · simp only [fetchSyncLongPoll, httpOk]
    rfl

/-- C2, counterexample: two snapshots identical except for the order of
their two distinct players produce different fingerprints, and the
reordered snapshot is accepted by the gate (it propagates): the players
component of buildStateSnapshotKey is the in-order join of per-player
rows, hence order-sensitive. -/
theorem player_reorder_changes_fingerprint_and_propagates :
    buildStateSnapshotKey sampleGame none [samplePlayerOne, samplePlayerTwo] ≠
      buildStateSnapshotKey sampleGame none [samplePlayerTwo, samplePlayerOne] ∧
    (pushGate
        ⟨some (buildStateSnapshotKey sampleGame none [samplePlayerOne, samplePlayerTwo]),
         some ⟨sampleGame, none, [samplePlayerOne, samplePlayerTwo]⟩⟩
        ⟨sampleGame, none, [samplePlayerTwo, samplePlayerOne]⟩).1 = true := by
  decide

/-- C2 (amended): the players component of the fingerprint is keyed by the
serialized per-player rows (userId, status, position, captured count,
score — incidental fields such as email or row id do not matter), but in
list order: snapshots whose player lists serialize to the same row
sequence have equal fingerprints. -/
theorem fingerprint_determined_by_player_rows (game : Game)
    (state : Option GameState) (ps qs : List GamePlayer)
    (h : ps.map playerRowKey = qs.map playerRowKey) :
    buildStateSnapshotKey game state ps = buildStateSnapshotKey game state qs := by
  unfold buildStateSnapshotKey
  rw [h]

/-- Player one with different incidental fields (email, row id, join date,
give-up date) but the same serialized row. -/
def samplePlayerOneAlias : GamePlayer :=
  { samplePlayerOne with
      id := 99
      email := "renamed@example.com"
      joinedAt := "2024-02-02T00:00:00Z"
      gaveUpAt := some "2024-02-03T00:00:00Z" }

/-- C2 witness: replacing a player by its alias with identical row fields
leaves the fingerprint unchanged. -/
theorem fingerprint_determined_by_player_rows_witness :
    buildStateSnapshotKey sampleGame (some sampleState)
        [samplePlayerOne, samplePlayerTwo] =
      buildStateSnapshotKey sampleGame (some sampleState)
        [samplePlayerOneAlias, samplePlayerTwo] :=
  fingerprint_determined_by_player_rows sampleGame (some sampleState)
    [samplePlayerOne, samplePlayerTwo] [samplePlayerOneAlias, samplePlayerTwo]
    (by decide)

/-- A server response body signalling a timeout without a cursor field. -/
def timeoutNoCursorBody : HealthJson :=
  { status := .jstr "UP", cursor := .absent, timeout := .jbool true }

/-- C3, counterexample: a timed-out health long poll whose response omits
the cursor returns cursor=null, not the input cursor "v1" — the returned
cursor is whatever the server sent, and the repository's own test expects
a timed-out response carrying cursor "v2" to return "v2" for input "v1". -/
theorem timed_out_cycle_does_not_return_input_cursor :
    fetchHealthStatusLongPoll (some "v1") (.response 200 timeoutNoCursorBody) =
      .ok { result := .up "UP", cursor := none, timedOut := true } ∧
    (none : Option String) ≠ some "v1" := by
  exact ⟨by decide, by decide⟩

/-- C3 (amended): on an HTTP-ok response the returned cursor is the
server's cursor field when a non-empty string and null otherwise,
independent of the input cursor and of timedOut (health and sync alike);
the input cursor is returned unchanged only on the health poller's caught
transport-failure path; the subscription loops preserve the prior cursor
through the nullish-coalescing update, so an omitted cursor leaves the
loop's cursor unchanged. -/
theorem long_poll_cursor_semantics (cur : Option String) (body : HealthJson)
    (msg : String) (α : Type) (d : α) (sbody : SyncBodyMeta α)
    (hd : sbody.domain = .ok d) :
    fetchHealthStatusLongPoll cur (.response 200 body) =
      .ok { result := .up (parseHealthPayload body).1,
            cursor := nonEmptyStr body.cursor,
            timedOut := body.timeout == .jbool true } ∧
    fetchHealthStatusLongPoll cur (.networkError msg) =
      .ok { result := getDownResult msg, cursor := cur, timedOut := false } ∧
    fetchSyncLongPoll α cur (.response 200 sbody) =
      .ok { data := d, cursor := nonEmptyStr sbody.cursor,
            timedOut := sbody.timeout == .jbool true } ∧
    (∀ prior : Option String, loopNextCursor none prior = prior) ∧
    (∀ prior s, loopNextCursor (some s) prior = some s) := by
  refine ⟨rfl, rfl, ?_, fun prior => rfl, fun prior s => rfl⟩
  obtain ⟨dom, m, c, t⟩ := sbody
  simp only [SyncBodyMeta.domain] at hd
  subst hd
  rfl

/-- One iteration of the health loop in polling-fallback mode stays in
polling-fallback mode and issues only plain snapshot requests. -/
theorem healthLoopStep_fallback_mode (st : HealthLoopState) (env : HealthEnv)
    (h : st.mode = .pollingFallback) :
    (healthLoopStep st env).1.mode = .pollingFallback ∧
    ∀ r ∈ (healthLoopStep st env).2, r.isResumable = false := by
  unfold healthLoopStep
  by_cases hh : st.halted = true
  · simp [hh, h]
  · rcases hsnap : fetchHealthStatusSnapshot env.snapNet with e | r <;>
      simp [hh, h, hsnap, HealthRequest.isResumable]

/-- In polling-fallback mode the health loop never leaves that mode and
never issues a resumable request again, over any sequence of outcomes. -/
theorem runHealthLoop_fallback (st : HealthLoopState) (envs : List HealthEnv)
    (h : st.mode = .pollingFallback) :
    (runHealthLoop st envs).1.mode = .pollingFallback ∧
    ∀ r ∈ (runHealthLoop st envs).2, r.isResumable = false := by
  induction envs generalizing st with
  | nil => exact ⟨h, by simp [runHealthLoop]⟩
  | cons e rest ih =>
    have step := healthLoopStep_fallback_mode st e h
    have tail := ih (healthLoopStep st e).1 step.1
    refine ⟨tail.1, ?_⟩
    intro r hr
    simp only [runHealthLoop, List.mem_append] at hr
    rcases hr with hr | hr
    · exact step.2 r hr
    · exact tail.2 r hr

/-- C5: HTTP 404/405/501 on the health long-poll endpoint raises the
distinguished UnsupportedLongPollingError; the loop iteration that catches
it switches to polling-fallback mode; and from polling-fallback mode the
loop never returns to long-poll mode nor issues another resumable
(cursor-carrying) request, whatever the remaining outcomes. -/
theorem unsupported_status_triggers_permanent_downgrade
    (cur : Option String) (body : HealthJson) (s : Nat)
    (hs : s = 404 ∨ s = 405 ∨ s = 501)
    (st : HealthLoopState) (env : HealthEnv) (envs : List HealthEnv)
    (hhalt : st.halted = false) (hmode : st.mode = .longPoll)
    (henv : env.pollNet = .response s body) :
    fetchHealthStatusLongPoll cur (.response s body) =
      .error (.unsupported
        ("Long polling endpoint is not available (HTTP " ++ toString s ++ ")")) ∧
    (healthLoopStep st env).1.mode = .pollingFallback ∧
    ∀ st2 : HealthLoopState, st2.mode = .pollingFallback →
      (runHealthLoop st2 envs).1.mode = .pollingFallback ∧
      ∀ r ∈ (runHealthLoop st2 envs).2, r.isResumable = false := by
  have hfetch : ∀ c : Option String,
      fetchHealthStatusLongPoll c (.response s body) =
        .error (.unsupported
          ("Long polling endpoint is not available (HTTP " ++ toString s ++ ")")) := by
    intro c
    rcases hs with h | h | h <;> subst h <;> rfl
  refine ⟨hfetch cur, ?_, fun st2 h2 => runHealthLoop_fallback st2 envs h2⟩
  unfold healthLoopStep
  rw [if_neg (by simp [hhalt])]
  simp [hmode, henv, hfetch st.cursor]

/-- C7: a join reply on the right topic whose ref matches the stored
joinRef and whose payload is not an ok status makes the socket report
disconnected, publish polling-fallback with a non-empty reason and emit a
join-failure event; the page handler maps disconnected to wsConnected
false and transport disconnected with its own non-empty polling-fallback
reason; that state passes the poll-loop guard; and the poll loop's very
first action is the long-poll request — no sleep precedes it. -/
theorem join_failure_publishes_fallback_and_polls_immediately
    (sock : PhoenixGameSocket) (m : WsInMsg) (st : GamePollState)
    (outs : List GamePollOutcome)
    (htopic : m.topic = sock.topic) (hev : m.event = "phx_reply")
    (href : m.ref = sock.joinRef) (hfail : joinReplyOk m.payload = false) :
    handleMessage sock (some m) =
      [.statusChange .disconnected,
       .publishStatus .pollingFallback (some "WebSocket join failed, using long poll."),
       .emitEvent "error" (.messageObj "Join failed")] ∧
    "WebSocket join failed, using long poll." ≠ "" ∧
    pageOnStatusChange .disconnected =
      ((false, .disconnected),
       (.pollingFallback, some "WebSocket disconnected, using long poll.")) ∧
    "WebSocket disconnected, using long poll." ≠ "" ∧
    pollLoopGate false .disconnected = true ∧
    (gamePollActions st outs).head? = some (.request st.cursor) := by
  refine ⟨?_, by decide, rfl, by decide, rfl, ?_⟩
  · simp [handleMessage, htopic, hev, href, hfail]
  · cases outs <;> rfl

/-- C7 witness data: an error join reply on the sample topic. -/
def sampleJoinFailReply : WsInMsg :=
  { joinRef := none, ref := some "1", topic := "game:7", event := "phx_reply",
    payload := .statusObj (.jstr "error") }

/-- Processing a run of candidates that all carry the fingerprint already
stored rejects every one of them and leaves the state untouched. -/
theorem processAll_const_key (k : String) (d : Option Snapshot)
    (cs : List Candidate) (hcs : ∀ c ∈ cs, snapKey c.snap = k) :
    processAll ⟨some k, d⟩ cs = (List.replicate cs.length false, ⟨some k, d⟩) := by
  induction cs with
  | nil => rfl
  | cons c rest ih =>
    have hk : snapKey c.snap = k := hcs c (by simp)
    have step : applyCandidate ⟨some k, d⟩ c = (false, ⟨some k, d⟩) := by
      cases htr : c.transport <;>
        simp [applyCandidate, htr, pushGate, pollGate, shouldPropagate, hk]
    simp [processAll, step, ih (fun x hx => hcs x (by simp [hx])), List.replicate_succ]

/-- C1: for any sequence of candidate updates whose computed fingerprints
all equal k, in any order and any mix of push and poll transports,
starting from a state whose stored fingerprint differs from k, the
reconciliation gate accepts exactly the first candidate — storing k and
displaying that candidate's snapshot — and rejects every later one
without touching the state again. -/
theorem reconciler_accepts_only_first_identical_fingerprint
    (k : String) (c : Candidate) (cs : List Candidate) (st : RecState)
    (hc : snapKey c.snap = k) (hcs : ∀ d ∈ cs, snapKey d.snap = k)
    (hnew : st.lastKey ≠ some k) :
    processAll st (c :: cs) =
      (true :: List.replicate cs.length false, ⟨some k, some c.snap⟩) := by
  have hne : some k ≠ st.lastKey := fun h => hnew h.symm
  have haccept : applyCandidate st c = (true, ⟨some k, some c.snap⟩) := by
    cases htr : c.transport <;>
      simp [applyCandidate, htr, pushGate, pollGate, shouldPropagate, hc, hne]
  simp [processAll, haccept, processAll_const_key k (some c.snap) cs hcs]

/-- The sample snapshot delivered over the push transport. -/
def candPush : Candidate := ⟨.push, sampleSnapshot⟩

/-- The sample snapshot delivered over the poll transport. -/
def candPoll : Candidate := ⟨.poll, sampleSnapshot⟩

/-- C1 witness: three deliveries of the same snapshot — push, then poll,
then push again — against an empty reconciler state: only the first is
accepted. -/
theorem reconciler_accepts_only_first_witness :
    processAll ⟨none, none⟩ [candPush, candPoll, candPush] =
      ([true, false, false], ⟨some (snapKey sampleSnapshot), some sampleSnapshot⟩) :=
  reconciler_accepts_only_first_identical_fingerprint (snapKey sampleSnapshot)
    candPush [candPoll, candPush] ⟨none, none⟩ rfl
    (by intro d hd; fin_cases hd <;> rfl) (by simp)

/-- C3 witness: the amended cursor semantics applied to the concrete
timed-out body, a concrete network failure and the trivial sync body. -/
theorem long_poll_cursor_semantics_witness :
    fetchHealthStatusLongPoll (some "v1") (.response 200 timeoutNoCursorBody) =
      .ok { result := .up (parseHealthPayload timeoutNoCursorBody).1,
            cursor := nonEmptyStr timeoutNoCursorBody.cursor,
            timedOut := timeoutNoCursorBody.timeout == .jbool true } ∧
    fetchHealthStatusLongPoll (some "v1") (.networkError "network failed") =
      .ok { result := getDownResult "network failed", cursor := some "v1",
            timedOut := false } ∧
    fetchSyncLongPoll Unit (some "v1") (.response 200 emptySyncBody) =
      .ok { data := (), cursor := nonEmptyStr emptySyncBody.cursor,
            timedOut := emptySyncBody.timeout == .jbool true } ∧
    (∀ prior : Option String, loopNextCursor none prior = prior) ∧
    (∀ prior s, loopNextCursor (some s) prior = some s) :=
  long_poll_cursor_semantics (some "v1") timeoutNoCursorBody "network failed"
    Unit () emptySyncBody rfl

/-- A response body with no meta fields. -/
def sampleHealthBody : HealthJson :=
  { status := .absent, cursor := .absent, timeout := .absent }

/-- A health loop state in resumable long-poll mode. -/
def sampleLongPollLoopState : HealthLoopState :=
  { cursor := some "v1", mode := .longPoll, retryMs := 2000, halted := false }

/-- An iteration environment whose long-poll request is answered 404. -/
def sample404Env : HealthEnv :=
  { pollNet := .response 404 sampleHealthBody,
    probeNet := .networkError "probe down",
    snapNet := .networkError "snapshot down",
    tornDownDuringSleep := false }

/-- C5 witness: a 404 response raises the unsupported error, the loop
switches to polling-fallback, and from there two further iterations stay
in fallback mode without a resumable request. -/
theorem unsupported_status_triggers_permanent_downgrade_witness :
    fetchHealthStatusLongPoll (some "v1") (.response 404 sampleHealthBody) =
      .error (.unsupported
        ("Long polling endpoint is not available (HTTP " ++ toString 404 ++ ")")) ∧
    (healthLoopStep sampleLongPollLoopState sample404Env).1.mode = .pollingFallback ∧
    ∀ st2 : HealthLoopState, st2.mode = .pollingFallback →
      (runHealthLoop st2 [sample404Env, sample404Env]).1.mode = .pollingFallback ∧
      ∀ r ∈ (runHealthLoop st2 [sample404Env, sample404Env]).2,
        r.isResumable = false :=
  unsupported_status_triggers_permanent_downgrade (some "v1") sampleHealthBody
    404 (Or.inl rfl) sampleLongPollLoopState sample404Env
    [sample404Env, sample404Env] rfl rfl rfl

/-- C7 witness: the concrete error join reply on the sample socket's topic
with the matching ref, followed by the page-side transitions and the
immediate first poll request. -/
theorem join_failure_publishes_fallback_witness :
    handleMessage sampleNotJoinedSocket (some sampleJoinFailReply) =
      [.statusChange .disconnected,
       .publishStatus .pollingFallback (some "WebSocket join failed, using long poll."),
       .emitEvent "error" (.messageObj "Join failed")] ∧
    "WebSocket join failed, using long poll." ≠ "" ∧
    pageOnStatusChange .disconnected =
      ((false, .disconnected),
       (.pollingFallback, some "WebSocket disconnected, using long poll.")) ∧
    "WebSocket disconnected, using long poll." ≠ "" ∧
    pollLoopGate false .disconnected = true ∧
    (gamePollActions ⟨none, ⟨none, none⟩⟩ []).head? = some (.request none) :=
  join_failure_publishes_fallback_and_polls_immediately sampleNotJoinedSocket
    sampleJoinFailReply ⟨none, ⟨none, none⟩⟩ [] rfl rfl rfl (by decide)

/-- The context in which a move can be evaluated: an available active
state, the caller's turn, and the caller located with both coordinates. -/
def moveContextReady (state : Option GameState) (players : List GamePlayer)
    (myUserId : Int) : Prop :=
  ∃ s, state = some s ∧ s.playState = .active ∧
    s.currentTurnUserId = some myUserId ∧
    ∃ p, players.find? (fun q => q.userId == myUserId) = some p ∧
      p.positionX ≠ none ∧ p.positionY ≠ none

/-- A validation is ok exactly when it is the buy action or the move
action. -/
theorem MoveValidation.isOk_iff (v : MoveValidation) :
    v.isOk = true ↔ v = .ok .buy ∨ v = .ok .move := by
  cases v with
  | ok a => cases a <;> simp [MoveValidation.isOk]
  | err r => simp [MoveValidation.isOk]

/-- The occupancy Bool of validateMoveTarget holds exactly when some other
active player stands on the target cell. -/
theorem any_occupies_iff (target : Coord) (myUserId : Int)
    (players : List GamePlayer) :
    players.any (occupiesTarget target myUserId) = true ↔
      ∃ p ∈ players, p.status = .active ∧ p.userId ≠ myUserId ∧
        p.positionX = some target.x ∧ p.positionY = some target.y := by
  simp [List.any_eq_true, occupiesTarget, and_assoc]

/-- Under a ready context, validateMoveTarget reduces to the bounds,
distance and occupancy decision chain. -/
theorem validateMoveTarget_ready_eq
    (target : Coord) (s : GameState) (players : List GamePlayer)
    (myUserId : Int) (myPlayer : GamePlayer) (mx my : Int)
    (hact : s.playState = .active)
    (hturn : s.currentTurnUserId = some myUserId)
    (hfind : players.find? (fun p => p.userId == myUserId) = some myPlayer)
    (hx : myPlayer.positionX = some mx) (hy : myPlayer.positionY = some my) :
    validateMoveTarget target (some s) players myUserId =
      (if target.x < 0 ∨ target.y < 0 ∨ s.width ≤ target.x ∨ s.height ≤ target.y then
        .err "Target is out of bounds."
      else if (target.x - mx).natAbs + (target.y - my).natAbs = 0 then .ok .buy
      else if (target.x - mx).natAbs + (target.y - my).natAbs ≠ 1 then
        .err "Move must be exactly 1 cell."
      else if (target.x - mx).natAbs = 1 ∧ (target.y - my).natAbs = 1 then
        .err "Diagonal moves are not allowed."
      else if players.any (occupiesTarget target myUserId) then
        .err "Target cell is occupied by another active player."
      else .ok .move) := by
  simp [validateMoveTarget, hact, hturn, hfind, hx, hy]

/-- C10: in an active game on the caller's turn with a located own
position, validateMoveTarget returns ok exactly for in-bounds targets that
either equal the caller's position or are one orthogonal step away onto a
cell not occupied by another active player; equality yields the buy
action, the step yields the move action; and in every other context —
missing state, inactive play state, another player's turn, caller not
found or without coordinates — it returns ok=false with a non-empty
reason. -/
theorem validateMoveTarget_characterization
    (target : Coord) (s : GameState) (players : List GamePlayer)
    (myUserId : Int) (myPlayer : GamePlayer) (mx my : Int)
    (hact : s.playState = .active)
    (hturn : s.currentTurnUserId = some myUserId)
    (hfind : players.find? (fun p => p.userId == myUserId) = some myPlayer)
    (hx : myPlayer.positionX = some mx) (hy : myPlayer.positionY = some my) :
    ((validateMoveTarget target (some s) players myUserId).isOk = true ↔
      (0 ≤ target.x ∧ 0 ≤ target.y ∧ target.x < s.width ∧ target.y < s.height) ∧
      ((target.x = mx ∧ target.y = my) ∨
       ((target.x - mx).natAbs + (target.y - my).natAbs = 1 ∧
        ¬∃ p ∈ players, p.status = .active ∧ p.userId ≠ myUserId ∧
          p.positionX = some target.x ∧ p.positionY = some target.y))) ∧
    (validateMoveTarget target (some s) players myUserId = .ok .buy ↔
      (0 ≤ target.x ∧ 0 ≤ target.y ∧ target.x < s.width ∧ target.y < s.height) ∧
      target.x = mx ∧ target.y = my) ∧
    (validateMoveTarget target (some s) players myUserId = .ok .move ↔
      (0 ≤ target.x ∧ 0 ≤ target.y ∧ target.x < s.width ∧ target.y < s.height) ∧
      (target.x - mx).natAbs + (target.y - my).natAbs = 1 ∧
      ¬∃ p ∈ players, p.status = .active ∧ p.userId ≠ myUserId ∧
        p.positionX = some target.x ∧ p.positionY = some target.y) ∧
    (∀ (st2 : Option GameState) (ps2 : List GamePlayer) (me2 : Int),
      ¬ moveContextReady st2 ps2 me2 →
      (validateMoveTarget target st2 ps2 me2).isOk = false ∧
      (validateMoveTarget target st2 ps2 me2).reason ≠ "") := by
  have heq := validateMoveTarget_ready_eq target s players myUserId myPlayer
    mx my hact hturn hfind hx hy
  have hbuy : validateMoveTarget target (some s) players myUserId = .ok .buy ↔
      (0 ≤ target.x ∧ 0 ≤ target.y ∧ target.x < s.width ∧ target.y < s.height) ∧
      target.x = mx ∧ target.y = my := by
    rw [heq]
    by_cases hb : target.x < 0 ∨ target.y < 0 ∨ s.width ≤ target.x ∨ s.height ≤ target.y
    · simp only [if_pos hb]
      constructor
      · intro h; cases h
      · rintro ⟨hinb, -⟩; omega
    · by_cases hd0 : (target.x - mx).natAbs + (target.y - my).natAbs = 0
      · simp only [if_neg hb, if_pos hd0]
        constructor
        · intro _; exact ⟨by omega, by omega⟩
        · intro _; trivial
      · rw [if_neg hb, if_neg hd0]
        constructor
        · intro h
          split_ifs at h <;> cases h
        · rintro ⟨-, hex, hey⟩
          exact absurd (by omega : (target.x - mx).natAbs + (target.y - my).natAbs = 0) hd0
  have hmove : validateMoveTarget target (some s) players myUserId = .ok .move ↔
      (0 ≤ target.x ∧ 0 ≤ target.y ∧ target.x < s.width ∧ target.y < s.height) ∧
      (target.x - mx).natAbs + (target.y - my).natAbs = 1 ∧
      ¬∃ p ∈ players, p.status = .active ∧ p.userId ≠ myUserId ∧
        p.positionX = some target.x ∧ p.positionY = some target.y := by
    rw [heq]
    by_cases hb : target.x < 0 ∨ target.y < 0 ∨ s.width ≤ target.x ∨ s.height ≤ target.y
    · simp only [if_pos hb]
      constructor
      · intro h; cases h
      · rintro ⟨hinb, -⟩; omega
    · by_cases hd0 : (target.x - mx).natAbs + (target.y - my).natAbs = 0
      · simp only [if_neg hb, if_pos hd0]
        constructor
        · intro h; cases h
        · rintro ⟨-, hd1, -⟩; omega
      · by_cases hd1 : (target.x - mx).natAbs + (target.y - my).natAbs = 1
        · have hdiag : ¬((target.x - mx).natAbs = 1 ∧ (target.y - my).natAbs = 1) := by
            omega
          by_cases ho : players.any (occupiesTarget target myUserId) = true
          · simp only [if_neg hb, if_neg hd0, if_neg (by omega : ¬((target.x - mx).natAbs + (target.y - my).natAbs ≠ 1)), if_neg hdiag, if_pos ho]
            constructor
            · intro h; cases h
            · rintro ⟨-, -, hnocc⟩
              exact absurd ((any_occupies_iff target myUserId players).mp ho) hnocc
          · simp only [if_neg hb, if_neg hd0, if_neg (by omega : ¬((target.x - mx).natAbs + (target.y - my).natAbs ≠ 1)), if_neg hdiag, if_neg ho]
            constructor
            · intro _
              exact ⟨by omega, hd1, fun hex => ho ((any_occupies_iff target myUserId players).mpr hex)⟩
            · intro _; trivial
        · simp only [if_neg hb, if_neg hd0, if_pos (by omega : (target.x - mx).natAbs + (target.y - my).natAbs ≠ 1)]
          constructor
          · intro h; cases h
          · rintro ⟨-, hd, -⟩; exact absurd hd hd1
  refine ⟨?_, hbuy, hmove, ?_⟩
  · rw [MoveValidation.isOk_iff, hbuy, hmove]
    constructor
    · rintro (⟨hinb, hexy⟩ | ⟨hinb, hd1, hnocc⟩)
      · exact ⟨hinb, Or.inl hexy⟩
      · exact ⟨hinb, Or.inr ⟨hd1, hnocc⟩⟩
    · rintro ⟨hinb, hexy | ⟨hd1, hnocc⟩⟩
      · exact Or.inl ⟨hinb, hexy⟩
      · exact Or.inr ⟨hinb, hd1, hnocc⟩
  · intro st2 ps2 me2 hnr
    cases st2 with
    | none =>
      have hv : validateMoveTarget target none ps2 me2 =
          .err "Game state is not available yet." := rfl
      rw [hv]; exact ⟨rfl, by decide⟩
    | some s2 =>
      by_cases h1 : s2.playState = .active
      · by_cases h2 : s2.currentTurnUserId = some me2
        · by_cases hb : target.x < 0 ∨ target.y < 0 ∨ s2.width ≤ target.x ∨ s2.height ≤ target.y
          · have hv : validateMoveTarget target (some s2) ps2 me2 =
                .err "Target is out of bounds." := by
              simp [validateMoveTarget, h1, h2, hb]
            rw [hv]; exact ⟨rfl, by decide⟩
          · cases hf : ps2.find? (fun q => q.userId == me2) with
            | none =>
              have hv : validateMoveTarget target (some s2) ps2 me2 =
                  .err "Your player position is not available." := by
                simp [validateMoveTarget, h1, h2, hb, hf]
              rw [hv]; exact ⟨rfl, by decide⟩
            | some p =>
              have hpos : p.positionX = none ∨ p.positionY = none := by
                by_contra hcon
                push_neg at hcon
                exact hnr ⟨s2, rfl, h1, h2, p, hf, hcon.1, hcon.2⟩
              cases hpx : p.positionX with
              | none =>
                have hv : validateMoveTarget target (some s2) ps2 me2 =
                    .err "Your player position is not available." := by
                  simp [validateMoveTarget, h1, h2, hb, hf, hpx]
                rw [hv]; exact ⟨rfl, by decide⟩
              | some mx2 =>
                have hpy : p.positionY = none := by
                  rcases hpos with h | h
                  · rw [hpx] at h; cases h
                  · exact h
                have hv : validateMoveTarget target (some s2) ps2 me2 =
                    .err "Your player position is not available." := by
                  simp [validateMoveTarget, h1, h2, hb, hf, hpx, hpy]
                rw [hv]; exact ⟨rfl, by decide⟩
        · have hv : validateMoveTarget target (some s2) ps2 me2 =
              .err "It is not your turn." := by
            simp [validateMoveTarget, h1, h2]
          rw [hv]; exact ⟨rfl, by decide⟩
      · have hv : validateMoveTarget target (some s2) ps2 me2 =
            .err ("Game is " ++ s2.playState.str ++ ".") := by
          simp [validateMoveTarget, h1]
        rw [hv]
        refine ⟨rfl, ?_⟩
        cases hps : s2.playState with
        | lobby => decide
        | active => exact absurd hps h1
        | closed => decide

/-- C10 witness: on the sample board it is player one's turn at (0, 0);
the adjacent free cell (1, 0) validates as a legal move. -/
theorem validateMoveTarget_characterization_witness :
    validateMoveTarget ⟨1, 0⟩ (some sampleState)
        [samplePlayerOne, samplePlayerTwo] 1 = .ok .move :=
  ((validateMoveTarget_characterization ⟨1, 0⟩ sampleState
      [samplePlayerOne, samplePlayerTwo] 1 samplePlayerOne 0 0
      rfl rfl rfl rfl rfl).2.2.1).mpr (by decide)

end SpaceGrid
